import Mathlib

/-!
Verification of the node-instance repository and usecase-selector wiring of
the kuintessence workflow orchestrator, as a shallow embedding in Lean.

The embedding models:
* the database rows of the `node_instance` table (`Model`),
* the domain entity `NodeInstance` and the row-to-entity conversion,
* the `OrmRepo` repository with its deferred statement buffer,
* the read queries of `NodeInstanceRepo` (`node_instance.rs`),
* the `usecase_select_service` registry from `service_provider.rs`,
* the unimplemented `get_all` methods.

Uuids are modelled as `Nat`; serialized JSON payloads as `String`.
-/

namespace Kuintessence

/-- Node-instance status. The enum lives in the `domain_workflow` crate,
which is not part of the repository snapshot; the variant set is modelled
from the spec's state machine (Standby → Running → Completed | Failed).
Only the pairwise distinctness of the `as i32` discriminants matters for
the repository code, which Rust guarantees; concrete values 0..3 stand in
for the unknown declaration-order discriminants. -/
inductive NodeInstanceStatus where
  | Standby
  | Running
  | Completed
  | Failed
deriving DecidableEq

/-- The `as i32` cast of `NodeInstanceStatus`. -/
def NodeInstanceStatus.toI32 : NodeInstanceStatus → Nat
  | .Standby => 0
  | .Running => 1
  | .Completed => 2
  | .Failed => 3

/-- Decode a stored status discriminant back to the enum. -/
def statusOfI32 (n : Nat) : Option NodeInstanceStatus :=
  if n = 0 then some .Standby
  else if n = 1 then some .Running
  else if n = 2 then some .Completed
  else if n = 3 then some .Failed
  else none

/-- Node kind. The enum lives in the `domain_workflow` crate, not in the
snapshot; the variant set is modelled from the spec (No-Action | Script |
Software-Computing | Milestone as the evidenced extra service). As for the
status, only distinctness of discriminants matters. -/
inductive NodeInstanceKind where
  | NoAction
  | SoftwareComputing
  | Script
  | Milestone
deriving DecidableEq

/-- The `as i32` cast of `NodeInstanceKind`. -/
def NodeInstanceKind.toI32 : NodeInstanceKind → Nat
  | .NoAction => 0
  | .SoftwareComputing => 1
  | .Script => 2
  | .Milestone => 3

/-- Decode a stored kind discriminant back to the enum. -/
def kindOfI32 (n : Nat) : Option NodeInstanceKind :=
  if n = 0 then some .NoAction
  else if n = 1 then some .SoftwareComputing
  else if n = 2 then some .Script
  else if n = 3 then some .Milestone
  else none

/-- A row of the `node_instance` table (`database_model::node_instance::Model`),
with the columns the repository code reads and writes. Enum-valued columns
are stored as their `i32` discriminants, as in the database. -/
structure Model where
  id : Nat
  name : String
  kind : Nat
  is_parent : Bool
  batch_parent_id : Option Nat
  status : Nat
  resource_meter : Option String
  log : Option String
  queue_id : Option Nat
  flow_instance_id : Nat
deriving DecidableEq

/-- The domain entity `domain_workflow::model::entity::NodeInstance`,
restricted to the fields the repository code touches. -/
structure NodeInstance where
  id : Nat
  name : String
  kind : NodeInstanceKind
  is_parent : Bool
  batch_parent_id : Option Nat
  status : NodeInstanceStatus
  resource_meter : Option String
  log : Option String
  queue_id : Option Nat
  flow_instance_id : Nat
deriving DecidableEq

/-- The row written for an entity (the full column list set by `insert`). -/
def NodeInstance.toModel (e : NodeInstance) : Model :=
  { id := e.id
    name := e.name
    kind := e.kind.toI32
    is_parent := e.is_parent
    batch_parent_id := e.batch_parent_id
    status := e.status.toI32
    resource_meter := e.resource_meter
    log := e.log
    queue_id := e.queue_id
    flow_instance_id := e.flow_instance_id }

/-- The `TryFrom<Model> for NodeInstance` conversion (`.try_into()` in the
repository code): it fails exactly when a stored discriminant decodes to no
enum variant. The impl lives outside the snapshot; modelled as the evident
field-wise conversion. -/
def tryInto (m : Model) : Except String NodeInstance :=
  match statusOfI32 m.status, kindOfI32 m.kind with
  | some s, some k =>
    Except.ok
      { id := m.id
        name := m.name
        kind := k
        is_parent := m.is_parent
        batch_parent_id := m.batch_parent_id
        status := s
        resource_meter := m.resource_meter
        log := m.log
        queue_id := m.queue_id
        flow_instance_id := m.flow_instance_id }
  | _, _ => Except.error "invalid enum discriminant"

/-- A built SQL statement pushed into the repository's pending buffer:
either the `UPDATE` built by `update` (filtering on `Id`, setting exactly
`status`, `resource_meter`, `log`, `queue_id`) or the `INSERT` built by
`insert` (setting every column). -/
inductive Statement where
  | updateStmt (filter_id : Nat) (status : Nat) (resource_meter : Option String)
      (log : Option String) (queue_id : Option Nat)
  | insertStmt (row : Model)
deriving DecidableEq

/-- The statement built by `MutableRepository::update`: the active model sets
`status`, `resource_meter`, `log` and `queue_id` (all other columns stay
`NotSet` via `..Default::default()`), filtered by `Id = entity.id`.
`serde_json::to_value` on the resource meter is modelled as total, the meter
being carried already serialized. -/
def update_statement (e : NodeInstance) : Statement :=
  Statement.updateStmt e.id e.status.toI32 e.resource_meter e.log e.queue_id

/-- The statement built by `MutableRepository::insert`: every column set
from the entity. -/
def insert_statement (e : NodeInstance) : Statement :=
  Statement.insertStmt e.toModel

/-- SQL semantics of a buffered statement against the table contents:
an `UPDATE ... WHERE id = fid` rewrites the four set columns of every
matching row; an `INSERT` appends the row. -/
def applyStatement (db : List Model) : Statement → List Model
  | Statement.updateStmt fid st rm lg qid =>
    db.map fun m =>
      if m.id = fid then
        { m with status := st, resource_meter := rm, log := lg, queue_id := qid }
      else m
  | Statement.insertStmt row => db ++ [row]

/-- The repository state: the connected database's `node_instance` table,
the shared pending-statement buffer (`self.statements`), and the `can_drop`
flag. -/
structure OrmRepo where
  db : List Model
  statements : List Statement
  can_drop : Bool
deriving DecidableEq

/-- `MutableRepository::<NodeInstance>::update`: builds the update statement,
pushes it onto the buffer and stores `false` into `can_drop`; no database
access happens. -/
def OrmRepo.update (r : OrmRepo) (e : NodeInstance) : OrmRepo :=
  { r with statements := r.statements ++ [update_statement e], can_drop := false }

/-- `MutableRepository::<NodeInstance>::insert`: builds the insert statement,
pushes it onto the buffer, stores `false` into `can_drop` and returns the
entity's id; no database access happens. -/
def OrmRepo.insert (r : OrmRepo) (e : NodeInstance) : OrmRepo × Nat :=
  ({ r with statements := r.statements ++ [insert_statement e], can_drop := false }, e.id)

/-- Modelled from the spec: the trait method `save_changed` delegates to
`OrmRepo`'s inherent `save_changed`, whose body lives in the database module
outside the snapshot. Per the spec it commits the buffered mutations as one
atomic batch ("commit a batch of pending mutations atomically") and resets
the buffer. -/
def OrmRepo.save_changed (r : OrmRepo) : OrmRepo × Bool :=
  ({ db := r.statements.foldl applyStatement r.db, statements := [], can_drop := true }, true)

/-- `ReadOnlyRepository::<NodeInstance>::get_by_id`: `find_by_id(uuid).one(..)`,
`NotFound` error when absent, otherwise `try_into`. `one` returns the first
matching row. -/
def get_by_id (db : List Model) (uuid : Nat) : Except String NodeInstance :=
  match db.find? fun m => m.id == uuid with
  | none => Except.error ("There is no such node_instance with id: " ++ toString uuid)
  | some m => tryInto m

/-- The `for el in res { r.push(el.try_into()?); }` loop shared by the list
queries: converts each row in order, propagating the first failure. -/
def modelsToEntities : List Model → Except String (List NodeInstance)
  | [] => Except.ok []
  | m :: rest =>
    match tryInto m with
    | Except.error e => Except.error e
    | Except.ok x =>
      match modelsToEntities rest with
      | Except.error e => Except.error e
      | Except.ok r => Except.ok (x :: r)

/-- `NodeInstanceRepo::get_node_sub_node_instances`: rows filtered by
`BatchParentId IS NOT NULL` and `BatchParentId = batch_parent_id`, then
converted. -/
def get_node_sub_node_instances (db : List Model) (batch_parent_id : Nat) :
    Except String (List NodeInstance) :=
  modelsToEntities
    (db.filter fun m => m.batch_parent_id.isSome && m.batch_parent_id == some batch_parent_id)

/-- `NodeInstanceRepo::is_all_same_entryment_nodes_success`: load the node
(`No such node!` when absent), take its `flow_instance_id`, collect the rows
of that workflow with `BatchParentId IS NULL`, and test that each has status
`Completed` or `Standby` (compared as `i32`). -/
def is_all_same_entryment_nodes_success (db : List Model) (node_id : Nat) :
    Except String Bool :=
  match db.find? fun m => m.id == node_id with
  | none => Except.error "No such node!"
  | some res =>
    let entries :=
      db.filter fun m => m.flow_instance_id == res.flow_instance_id && m.batch_parent_id.isNone
    Except.ok (entries.all fun el =>
      el.status == NodeInstanceStatus.Completed.toI32
        || el.status == NodeInstanceStatus.Standby.toI32)

/-- `NodeInstanceRepo::get_all_workflow_instance_stand_by_nodes`: rows with
`FlowInstanceId = workflow_instance_id` and `Status = Standby as i32`,
converted. -/
def get_all_workflow_instance_stand_by_nodes (db : List Model) (workflow_instance_id : Nat) :
    Except String (List NodeInstance) :=
  modelsToEntities
    (db.filter fun m =>
      m.flow_instance_id == workflow_instance_id
        && m.status == NodeInstanceStatus.Standby.toI32)

/-- `NodeInstanceRepo::get_all_workflow_instance_nodes`: all rows of one
workflow, converted. -/
def get_all_workflow_instance_nodes (db : List Model) (workflow_instance_id : Nat) :
    Except String (List NodeInstance) :=
  modelsToEntities (db.filter fun m => m.flow_instance_id == workflow_instance_id)

/-- `NodeInstanceRepo::get_nth_of_batch_tasks`: loads the row whose `Id`
equals `sub_node_id` (`No such node!` when absent) and binds
`batch_parent_id` to that row's `.id` field — the source reads `.id`, not
`.batch_parent_id`. It then lists the rows whose `BatchParentId` equals that
value and scans them, recording the last position whose `id` equals
`sub_node_id`; `No such sub node!` when the scan finds none. -/
def get_nth_of_batch_tasks (db : List Model) (sub_node_id : Nat) : Except String Nat :=
  match db.find? fun m => m.id == sub_node_id with
  | none => Except.error "No such node!"
  | some res =>
    let batch_parent_id := res.id
    let sub_nodes := db.filter fun m => m.batch_parent_id == some batch_parent_id
    let nth := sub_nodes.enum.foldl
      (fun nth p => if p.2.id == sub_node_id then some p.1 else nth) none
    match nth with
    | some i => Except.ok i
    | none => Except.error "No such sub node!"

/-- Repository-level view of `get_nth_of_batch_tasks`: the method reads only
the database connection of the repository state. -/
def OrmRepo.get_nth_of_batch_tasks (r : OrmRepo) (sub_node_id : Nat) : Except String Nat :=
  Kuintessence.get_nth_of_batch_tasks r.db sub_node_id

/-- Outcome of a Rust call that may panic instead of returning. -/
inductive RustOutcome (α : Type) where
  | value (a : α)
  | diverges (msg : String)
deriving DecidableEq

/-- `ReadOnlyRepository::<NodeInstance>::get_all`: the body is
`unimplemented!()`, which panics with this message for every state. -/
def OrmRepo.get_all (_ : OrmRepo) : RustOutcome (List NodeInstance) :=
  RustOutcome.diverges "not implemented"

/-- A row of the storage-server table. Its columns live in system crates
outside the snapshot and none is read by `get_all`; only an identifier is
modelled. -/
structure StorageServerModel where
  id : Nat
deriving DecidableEq

/-- The storage-side repository state (`SeaOrmDbRepository`). -/
structure SeaOrmDbRepository where
  db : List StorageServerModel
deriving DecidableEq

/-- `IReadOnlyRepository::<StorageServer>::get_all` in
`repository/storage/server.rs`: the body is `unimplemented!()`. -/
def SeaOrmDbRepository.get_all (_ : SeaOrmDbRepository) : RustOutcome (List StorageServerModel) :=
  RustOutcome.diverges "not implemented"

/-- The three usecase strategy instances registered in the selector of
`service_provider.rs` (`no_action_usecase_service`,
`software_computing_usecase_service`, `script_usecase_service`). -/
inductive UsecaseService where
  | noAction
  | softwareComputing
  | script
deriving DecidableEq

/-- Modelled from the spec: `get_service_type` is implemented by each
usecase service in the domain service crates, which are outside the
snapshot. Per the spec each strategy self-reports the node kind it handles
(No-Action, Software-Computing, Script). -/
def UsecaseService.get_service_type : UsecaseService → NodeInstanceKind
  | .noAction => NodeInstanceKind.NoAction
  | .softwareComputing => NodeInstanceKind.SoftwareComputing
  | .script => NodeInstanceKind.Script

/-- A `HashMap` carrying only its observable association. -/
def HMap (K V : Type) : Type := List (K × V)

/-- `HashMap::insert`: replace the value under an existing key, otherwise
add the binding. -/
def HMap.insertKV {K V : Type} [DecidableEq K] (m : HMap K V) (k : K) (v : V) : HMap K V :=
  if (List.any m fun p => p.1 == k) then
    List.map (fun p => if p.1 == k then (k, v) else p) m
  else
    List.append m [(k, v)]

/-- `HashMap::get`. -/
def HMap.getKV {K V : Type} [DecidableEq K] (m : HMap K V) (k : K) : Option V :=
  Option.map (fun p => p.2) (List.find? (fun p => p.1 == k) m)

/-- The selector registry built once in `usecase_select_service`: a fresh
map receiving, in order, the No-Action, Software-Computing and Script
services under their self-reported kinds. -/
def usecase_select_service : HMap NodeInstanceKind UsecaseService :=
  HMap.insertKV
    (HMap.insertKV
      (HMap.insertKV ([] : HMap NodeInstanceKind UsecaseService)
        UsecaseService.noAction.get_service_type UsecaseService.noAction)
      UsecaseService.softwareComputing.get_service_type UsecaseService.softwareComputing)
    UsecaseService.script.get_service_type UsecaseService.script

/-! ### Concrete store used by witnesses -/

/-- A batch-parent row: entry-level (no batch parent), completed. -/
def exParent : Model :=
  { id := 0
    name := "parent"
    kind := 1
    is_parent := true
    batch_parent_id := none
    status := 2
    resource_meter := none
    log := none
    queue_id := none
    flow_instance_id := 7 }

/-- A batch-child row of `exParent`, standby. -/
def exChild : Model :=
  { id := 1
    name := "child"
    kind := 1
    is_parent := false
    batch_parent_id := some 0
    status := 0
    resource_meter := none
    log := none
    queue_id := none
    flow_instance_id := 7 }

/-- A two-node store: one parent with one batch child. -/
def exDb : List Model := [exParent, exChild]

/-- The entity corresponding to the row `exChild`. -/
def exChildEntity : NodeInstance :=
  { id := 1
    name := "child"
    kind := NodeInstanceKind.SoftwareComputing
    is_parent := false
    batch_parent_id := some 0
    status := NodeInstanceStatus.Standby
    resource_meter := none
    log := none
    queue_id := none
    flow_instance_id := 7 }

/-! ### Helper lemmas -/

theorem statusOfI32_toI32 (n : Nat) (s : NodeInstanceStatus) (h : statusOfI32 n = some s) :
    s.toI32 = n := by
  unfold statusOfI32 at h
  split_ifs at h <;> injection h with h <;> subst h <;>
    simp [NodeInstanceStatus.toI32] <;> omega

theorem kindOfI32_toI32 (n : Nat) (k : NodeInstanceKind) (h : kindOfI32 n = some k) :
    k.toI32 = n := by
  unfold kindOfI32 at h
  split_ifs at h <;> injection h with h <;> subst h <;>
    simp [NodeInstanceKind.toI32] <;> omega

theorem toI32_injective (s t : NodeInstanceStatus) (h : s.toI32 = t.toI32) : s = t := by
  cases s <;> cases t <;> first | rfl | simp_all [NodeInstanceStatus.toI32]

theorem tryInto_toModel (m : Model) (e : NodeInstance) (h : tryInto m = Except.ok e) :
    e.toModel = m := by
  unfold tryInto at h
  split at h
  case _ s k hs hk =>
    cases h
    cases m
    simp [NodeInstance.toModel, kindOfI32_toI32 _ _ hk, statusOfI32_toI32 _ _ hs]
  case _ => cases h

theorem modelsToEntities_ok_map (ms : List Model) (l : List NodeInstance)
    (h : modelsToEntities ms = Except.ok l) : List.map NodeInstance.toModel l = ms := by
  induction ms generalizing l with
  | nil =>
    unfold modelsToEntities at h
    cases h
    rfl
  | cons m rest ih =>
    unfold modelsToEntities at h
    split at h
    case _ => cases h
    case _ x hx =>
      split at h
      case _ => cases h
      case _ r hr =>
        cases h
        simp only [List.map]
        rw [tryInto_toModel _ _ hx, ih _ hr]

/-- The row written for `m` by the update statement of `e`. -/
def updatedRow (e : NodeInstance) (m : Model) : Model :=
  { m with status := e.status.toI32, resource_meter := e.resource_meter, log := e.log, queue_id := e.queue_id }

theorem applyStatement_update_cons (m : Model) (rest : List Model) (e : NodeInstance) :
    applyStatement (m :: rest) (update_statement e) =
      (if m.id = e.id then updatedRow e m else m) :: applyStatement rest (update_statement e) := by
  simp only [applyStatement, update_statement, List.map, updatedRow]

/-! ### Claim theorems -/

/-- Claim C1 (code behavior at the failing input): in a store holding a
batch parent (id 0) and a single batch child (id 1, batch_parent_id 0),
the child has exactly one sibling sharing its batch parent, yet
`get_nth_of_batch_tasks` on the child returns the error `No such sub node!`
instead of `Ok 0`: the source binds `batch_parent_id` to the looked-up
row's own `.id` field, so it scans the children OF the child. -/
theorem get_nth_of_batch_tasks_bug :
    exChild ∈ exDb ∧ exChild.batch_parent_id = some exParent.id ∧
    (exDb.filter fun m => m.batch_parent_id == exChild.batch_parent_id).length = 1 ∧
    get_nth_of_batch_tasks exDb exChild.id = Except.error "No such sub node!" := by
  refine ⟨by decide, rfl, rfl, rfl⟩

/-- Claim C2: for every existing node id, `is_all_same_entryment_nodes_success`
returns `Ok b` where `b` is true iff every node of the same workflow with no
batch-parent reference has status Completed or Standby; in particular it is
false when some such entry node is Running or Failed, and true when the
workflow has no entry nodes at all. -/
theorem is_all_same_entryment_nodes_success_spec (db : List Model) (node_id : Nat)
    (res : Model) (h : db.find? (fun m => m.id == node_id) = some res) :
    ∃ b, is_all_same_entryment_nodes_success db node_id = Except.ok b ∧
      (b = true ↔ ∀ el ∈ db, el.flow_instance_id = res.flow_instance_id →
        el.batch_parent_id = none →
        (el.status = NodeInstanceStatus.Completed.toI32 ∨
          el.status = NodeInstanceStatus.Standby.toI32)) ∧
      ((∃ el ∈ db, el.flow_instance_id = res.flow_instance_id ∧ el.batch_parent_id = none ∧
          (el.status = NodeInstanceStatus.Running.toI32 ∨
            el.status = NodeInstanceStatus.Failed.toI32)) → b = false) ∧
      ((∀ el ∈ db, el.flow_instance_id = res.flow_instance_id → el.batch_parent_id ≠ none) →
        b = true) := by
  have hb : is_all_same_entryment_nodes_success db node_id =
      Except.ok ((db.filter fun m =>
          m.flow_instance_id == res.flow_instance_id && m.batch_parent_id.isNone).all
        fun el =>
          el.status == NodeInstanceStatus.Completed.toI32
            || el.status == NodeInstanceStatus.Standby.toI32) := by
    unfold is_all_same_entryment_nodes_success
    rw [h]
  have hiff : ((db.filter fun m =>
      m.flow_instance_id == res.flow_instance_id && m.batch_parent_id.isNone).all
        fun el =>
          el.status == NodeInstanceStatus.Completed.toI32
            || el.status == NodeInstanceStatus.Standby.toI32) = true ↔
      ∀ el ∈ db, el.flow_instance_id = res.flow_instance_id → el.batch_parent_id = none →
        (el.status = NodeInstanceStatus.Completed.toI32 ∨
          el.status = NodeInstanceStatus.Standby.toI32) := by
    rw [List.all_eq_true]
    constructor
    · intro hall el hm hf hbp
      have hmem : el ∈ db.filter (fun m =>
          m.flow_instance_id == res.flow_instance_id && m.batch_parent_id.isNone) := by
        rw [List.mem_filter]
        exact ⟨hm, by simp [hf, hbp]⟩
      simpa using hall el hmem
    · intro hall el hmem
      have hm := (List.mem_filter.mp hmem).1
      have hcond := (List.mem_filter.mp hmem).2
      simp only [Bool.and_eq_true, beq_iff_eq, Option.isNone_iff_eq_none] at hcond
      simpa using hall el hm hcond.1 hcond.2
  refine ⟨_, hb, hiff, ?_, ?_⟩
  · rintro ⟨el, hmem, hflow, hbp, hst⟩
    rw [Bool.eq_false_iff]
    intro htrue
    have hd := (hiff.mp htrue) el hmem hflow hbp
    simp [NodeInstanceStatus.toI32] at hd hst
    omega
  · intro hnone
    refine hiff.mpr ?_
    intro el hmem hflow hbp
    exact absurd hbp (hnone el hmem hflow)

/-- Witness for C2 on the concrete store: node 1 exists, its workflow's entry
nodes are all Completed or Standby. -/
theorem is_all_same_entryment_nodes_success_spec_witness :
    ∃ b, is_all_same_entryment_nodes_success exDb 1 = Except.ok b ∧
      (b = true ↔ ∀ el ∈ exDb, el.flow_instance_id = exChild.flow_instance_id →
        el.batch_parent_id = none →
        (el.status = NodeInstanceStatus.Completed.toI32 ∨
          el.status = NodeInstanceStatus.Standby.toI32)) ∧
      ((∃ el ∈ exDb, el.flow_instance_id = exChild.flow_instance_id ∧
          el.batch_parent_id = none ∧
          (el.status = NodeInstanceStatus.Running.toI32 ∨
            el.status = NodeInstanceStatus.Failed.toI32)) → b = false) ∧
      ((∀ el ∈ exDb, el.flow_instance_id = exChild.flow_instance_id →
          el.batch_parent_id ≠ none) → b = true) :=
  is_all_same_entryment_nodes_success_spec exDb 1 exChild (by rfl)

/-- Claim C3: `update` and `insert` touch no table: each only appends its
built statement to the pending buffer and stores `false` into `can_drop`;
the buffered statements hit the database only at `save_changed`, which
applies them as one batch. -/
theorem mutations_deferred_to_save_changed (r : OrmRepo) (e : NodeInstance) :
    (r.update e).db = r.db ∧
    (r.update e).statements = r.statements ++ [update_statement e] ∧
    (r.update e).can_drop = false ∧
    (r.insert e).1.db = r.db ∧
    (r.insert e).1.statements = r.statements ++ [insert_statement e] ∧
    (r.insert e).1.can_drop = false ∧
    r.save_changed.1.db = List.foldl applyStatement r.db r.statements ∧
    r.save_changed.1.statements = [] :=
  ⟨rfl, rfl, rfl, rfl, rfl, rfl, rfl, rfl⟩

/-- Claim C4: applying the statement built by `update` leaves every row's
`id`, `name`, `kind`, `is_parent`, `batch_parent_id` and `flow_instance_id`
unchanged, leaves rows with a different id entirely unchanged, and rewrites
only `status`, `resource_meter`, `log` and `queue_id` on rows whose id
equals the entity's id. -/
theorem update_statement_frame (db : List Model) (e : NodeInstance) :
    List.Forall₂
      (fun m mu =>
        mu.id = m.id ∧ mu.name = m.name ∧ mu.kind = m.kind ∧ mu.is_parent = m.is_parent ∧
        mu.batch_parent_id = m.batch_parent_id ∧ mu.flow_instance_id = m.flow_instance_id ∧
        (m.id ≠ e.id → mu = m) ∧
        (m.id = e.id →
          mu.status = e.status.toI32 ∧ mu.resource_meter = e.resource_meter ∧
          mu.log = e.log ∧ mu.queue_id = e.queue_id))
      db (applyStatement db (update_statement e)) := by
  induction db with
  | nil => exact List.Forall₂.nil
  | cons m rest ih =>
    rw [applyStatement_update_cons]
    refine List.Forall₂.cons ?_ ih
    by_cases hid : m.id = e.id <;> simp [hid, updatedRow]

/-- Claim C5: when no stored row carries the requested id, `get_by_id`,
`is_all_same_entryment_nodes_success` and `get_nth_of_batch_tasks` each
return the NotFound-style error of the source, rather than a default. -/
theorem missing_node_errors (db : List Model) (uuid : Nat) (h : ∀ m ∈ db, m.id ≠ uuid) :
    get_by_id db uuid =
      Except.error ("There is no such node_instance with id: " ++ toString uuid) ∧
    is_all_same_entryment_nodes_success db uuid = Except.error "No such node!" ∧
    get_nth_of_batch_tasks db uuid = Except.error "No such node!" := by
  have hf : db.find? (fun m => m.id == uuid) = none :=
    List.find?_eq_none.mpr (by intro m hm; simpa using h m hm)
  refine ⟨?_, ?_, ?_⟩
  · unfold get_by_id; rw [hf]
  · unfold is_all_same_entryment_nodes_success; rw [hf]
  · unfold get_nth_of_batch_tasks; rw [hf]

/-- Witness for C5 at id 99 on the concrete store. -/
theorem missing_node_errors_witness :
    get_by_id exDb 99 =
      Except.error ("There is no such node_instance with id: " ++ toString 99) ∧
    is_all_same_entryment_nodes_success exDb 99 = Except.error "No such node!" ∧
    get_nth_of_batch_tasks exDb 99 = Except.error "No such node!" :=
  missing_node_errors exDb 99 (by decide)

/-- Claim C6: a successful `get_node_sub_node_instances(p)` returns exactly
the stored rows whose batch-parent reference is present and equal to `p`:
every returned entity has batch parent `p`, and the returned list maps back
onto precisely the stored rows with batch parent `p`, in store order. -/
theorem get_node_sub_node_instances_exact (db : List Model) (p : Nat) (l : List NodeInstance)
    (h : get_node_sub_node_instances db p = Except.ok l) :
    (∀ e ∈ l, e.batch_parent_id = some p) ∧
    List.map NodeInstance.toModel l = db.filter fun m => m.batch_parent_id == some p := by
  unfold get_node_sub_node_instances at h
  have hmap := modelsToEntities_ok_map _ _ h
  have hfun : (fun m : Model => m.batch_parent_id.isSome && (m.batch_parent_id == some p))
      = fun m : Model => m.batch_parent_id == some p := by
    funext m
    cases m.batch_parent_id <;> rfl
  rw [hfun] at hmap
  refine ⟨?_, hmap⟩
  intro e he
  have hmem : e.toModel ∈ db.filter (fun m => m.batch_parent_id == some p) := by
    rw [← hmap]
    exact List.mem_map_of_mem _ he
  have hp := (List.mem_filter.mp hmem).2
  have hbp : e.toModel.batch_parent_id = some p := by simpa using hp
  simpa [NodeInstance.toModel] using hbp

/-- Witness for C6: the children of parent 0 in the concrete store are
exactly the one stored child. -/
theorem get_node_sub_node_instances_exact_witness :
    (∀ e ∈ [exChildEntity], e.batch_parent_id = some 0) ∧
    List.map NodeInstance.toModel [exChildEntity] =
      exDb.filter fun m => m.batch_parent_id == some 0 :=
  get_node_sub_node_instances_exact exDb 0 [exChildEntity] (by rfl)

/-- Claim C7: a successful `get_all_workflow_instance_stand_by_nodes(w)`
returns exactly the stored rows of workflow `w` with status Standby: every
returned entity belongs to `w` and is Standby, and the returned list maps
back onto precisely those stored rows, in store order. -/
theorem stand_by_nodes_exact (db : List Model) (w : Nat) (l : List NodeInstance)
    (h : get_all_workflow_instance_stand_by_nodes db w = Except.ok l) :
    (∀ e ∈ l, e.flow_instance_id = w ∧ e.status = NodeInstanceStatus.Standby) ∧
    List.map NodeInstance.toModel l = db.filter fun m =>
      m.flow_instance_id == w && m.status == NodeInstanceStatus.Standby.toI32 := by
  unfold get_all_workflow_instance_stand_by_nodes at h
  have hmap := modelsToEntities_ok_map _ _ h
  refine ⟨?_, hmap⟩
  intro e he
  have hmem : e.toModel ∈ db.filter (fun m =>
      m.flow_instance_id == w && m.status == NodeInstanceStatus.Standby.toI32) := by
    rw [← hmap]
    exact List.mem_map_of_mem _ he
  have hp := (List.mem_filter.mp hmem).2
  simp only [Bool.and_eq_true, beq_iff_eq] at hp
  obtain ⟨h1, h2⟩ := hp
  refine ⟨by simpa [NodeInstance.toModel] using h1, ?_⟩
  have hs : e.status.toI32 = NodeInstanceStatus.Standby.toI32 := by
    simpa [NodeInstance.toModel] using h2
  exact toI32_injective _ _ hs

/-- Witness for C7: the Standby nodes of workflow 7 in the concrete store
are exactly the one stored child (the parent is Completed). -/
theorem stand_by_nodes_exact_witness :
    (∀ e ∈ [exChildEntity], e.flow_instance_id = 7 ∧
      e.status = NodeInstanceStatus.Standby) ∧
    List.map NodeInstance.toModel [exChildEntity] = exDb.filter fun m =>
      m.flow_instance_id == 7 && m.status == NodeInstanceStatus.Standby.toI32 :=
  stand_by_nodes_exact exDb 7 [exChildEntity] (by rfl)

/-- Claim C8: the selector registry maps exactly the self-reported kinds of
the No-Action, Software-Computing and Script services, and looking up any
such kind returns the matching strategy instance. -/
theorem usecase_selector_registry :
    (∀ s : UsecaseService,
      HMap.getKV usecase_select_service s.get_service_type = some s) ∧
    (∀ k : NodeInstanceKind,
      (HMap.getKV usecase_select_service k).isSome = true ↔
        (k = UsecaseService.noAction.get_service_type ∨
          k = UsecaseService.softwareComputing.get_service_type ∨
          k = UsecaseService.script.get_service_type)) := by
  constructor
  · intro s; cases s <;> rfl
  · intro k; cases k <;> decide

/-- Claim C9: `get_nth_of_batch_tasks` reads only the database state of the
repository: two repository states over the same table contents (whatever
their pending buffers or flags) give the same result for the same id. -/
theorem get_nth_of_batch_tasks_deterministic (r1 r2 : OrmRepo) (sub_node_id : Nat)
    (h : r1.db = r2.db) :
    OrmRepo.get_nth_of_batch_tasks r1 sub_node_id =
      OrmRepo.get_nth_of_batch_tasks r2 sub_node_id := by
  unfold OrmRepo.get_nth_of_batch_tasks
  rw [h]

/-- Witness for C9: two repository states sharing the concrete table but
with different pending buffers and flags agree on the call. -/
theorem get_nth_of_batch_tasks_deterministic_witness :
    OrmRepo.get_nth_of_batch_tasks ⟨exDb, [], true⟩ 1 =
      OrmRepo.get_nth_of_batch_tasks ⟨exDb, [insert_statement exChildEntity], false⟩ 1 :=
  get_nth_of_batch_tasks_deterministic ⟨exDb, [], true⟩
    ⟨exDb, [insert_statement exChildEntity], false⟩ 1 rfl

/-- Claim C10: both `get_all` bodies are `unimplemented!()`: every
invocation panics, for every repository state, instead of returning the
entity list. -/
theorem get_all_always_diverges :
    (∀ r : OrmRepo, r.get_all = RustOutcome.diverges "not implemented") ∧
    (∀ s : SeaOrmDbRepository, s.get_all = RustOutcome.diverges "not implemented") :=
  ⟨fun _ => rfl, fun _ => rfl⟩

end Kuintessence
